import Mathlib

/-!
# Verification of the ai-lead-gen service

Shallow embedding of the lead-generation HTTP service:
* `models/schemas.py` — the `Lead` record and request/response models;
* `scraper/gmaps_scraper.py` — the scroll-and-extract loop, the per-element
  field extraction and its regex parsing;
* `utils/export.py` — the CSV writer and the Google-Sheets stub;
* `main.py` — the HTTP handlers over the in-process `leads_storage` dict.

Browser and file-system effects are modelled by explicit oracle parameters
(the DOM query result of each scroll cycle, the outcome of a file write);
machine floats that arise from parsing decimal strings are modelled as
exact rationals; Python exceptions are modelled by `Except`/`PyExc`.
-/

namespace LeadGen

/-- Python exceptions as seen by the handlers: either a FastAPI/Starlette
`HTTPException` (whose `str()` is `"{status_code}: {detail}"`) or any other
exception carrying its message string. -/
inductive PyExc where
  | http (code : Nat) (detail : String)
  | other (msg : String)
deriving DecidableEq

/-- `str(e)` for an exception: Starlette's `HTTPException.__str__` renders
`f"{self.status_code}: {self.detail}"`; other exceptions render their message. -/
def pyExcStr : PyExc → String
  | .http code detail => toString code ++ ": " ++ detail
  | .other msg => msg

/-- `models/schemas.py` `Lead`: name is required, every other field has a
`None` default.  `Optional[Dict[str, float]]` coordinates are an optional
association list of string keys to (decimal-exact) float values. -/
structure Lead where
  name : String
  address : Option String := none
  phone : Option String := none
  website : Option String := none
  email : Option String := none
  rating : Option ℚ := none
  reviews_count : Option ℤ := none
  category : Option String := none
  google_maps_url : Option String := none
  place_id : Option String := none
  coordinates : Option (List (String × ℚ)) := none
deriving DecidableEq

/-- The `business_data` dict built by `_extract_business_data` (it has no
`email` key; `Lead(**business_data)` leaves `email` at its default). -/
structure BusinessData where
  name : String
  address : Option String
  phone : Option String
  website : Option String
  rating : Option ℚ
  reviews_count : Option ℤ
  category : Option String
  google_maps_url : Option String
  place_id : Option String
  coordinates : Option (List (String × ℚ))
deriving DecidableEq

/-- `Lead(**lead_data)` on the extracted dict: every key of `business_data`
is passed through and `email` takes its `None` default. -/
def leadOfData (d : BusinessData) : Lead :=
  { name := d.name, address := d.address, phone := d.phone,
    website := d.website, email := none, rating := d.rating,
    reviews_count := d.reviews_count, category := d.category,
    google_maps_url := d.google_maps_url, place_id := d.place_id,
    coordinates := d.coordinates }

/-- Oracle view of one result element plus the page state reached by clicking
it.  Each `Option String` collapses "selector found no element" and
"`text_content()` returned `None`" into `none` (both leave the field unset in
the source); `clickOk = false` models the inner `try` around the click
raising, which leaves phone/website/url/place-id unset. -/
structure RawElement where
  nameText : Option String
  addressText : Option String
  ratingText : Option String
  reviewsText : Option String
  categoryText : Option String
  clickOk : Bool
  phoneText : Option String
  websiteHref : Option String
  pageUrl : String
deriving DecidableEq

/-! ## Regex parsing from `_extract_business_data`

`re.search(r'(\d+\.?\d*)', text)` matches at the leftmost position where a
digit starts; being greedy with no possible backtracking it takes the maximal
digit run, an optional dot, and a maximal digit run. -/

/-- Try the pattern `\d+\.?\d*` anchored at the head of `cs`. -/
def numMatchAt (cs : List Char) : Option (List Char) :=
  match cs with
  | [] => none
  | c :: _ =>
    if c.isDigit then
      let ds := cs.takeWhile Char.isDigit
      match cs.dropWhile Char.isDigit with
      | '.' :: r2 => some (ds ++ '.' :: r2.takeWhile Char.isDigit)
      | _ => some ds
    else none

/-- Leftmost match of `\d+\.?\d*`, as `re.search` finds it. -/
def searchNumAux : List Char → Option (List Char)
  | [] => none
  | c :: rest =>
    match numMatchAt (c :: rest) with
    | some m => some m
    | none => searchNumAux rest

/-- Digit run to a natural number, most significant first. -/
def digitsToNat (ds : List Char) : ℕ :=
  ds.foldl (fun a c => a * 10 + (c.toNat - 48)) 0

/-- `float(...)` of a matched decimal numeral (exact, as a rational:
every numeral the regex can produce is a finite decimal). -/
def floatOfMatch (cs : List Char) : ℚ :=
  let ip := cs.takeWhile Char.isDigit
  match cs.dropWhile Char.isDigit with
  | '.' :: fr => (digitsToNat ip : ℚ) + (digitsToNat fr : ℚ) / (10 : ℚ) ^ fr.length
  | _ => (digitsToNat ip : ℚ)

/-- `rating_match = re.search(r'(\d+\.?\d*)', rating_text)` followed by
`float(rating_match.group(1))`; `none` when the regex does not match. -/
def ratingFromText (t : String) : Option ℚ :=
  (searchNumAux t.data).map floatOfMatch

/-- Leftmost match of `\d+`: the first maximal digit run. -/
def searchIntAux : List Char → Option (List Char)
  | [] => none
  | c :: rest =>
    if c.isDigit then some ((c :: rest).takeWhile Char.isDigit)
    else searchIntAux rest

/-- `re.search(r'(\d+)', reviews_text.replace(',', ''))` followed by
`int(...)`: commas removed, then the first integer. -/
def reviewsFromText (t : String) : Option ℤ :=
  (searchIntAux (t.data.filter (fun c => c != ','))).map
    (fun ds => ((digitsToNat ds : ℕ) : ℤ))

/-! ## Substring / place-id extraction -/

/-- `p in s` on strings, as lists of characters. -/
def isSubstrOf (p : List Char) : List Char → Bool
  | [] => p.isEmpty
  | c :: rest => p.isPrefixOf (c :: rest) || isSubstrOf p rest

/-- Try `place/([^/]+)` anchored at the head: literal `place/` then a
nonempty run of non-slash characters. -/
def placeIdAt (s : List Char) : Option (List Char) :=
  if ("place/".data).isPrefixOf s then
    let seg := (s.drop 6).takeWhile (fun c => c != '/')
    if seg.isEmpty then none else some seg
  else none

/-- Leftmost match of `place/([^/]+)`, group 1, as `re.search` finds it. -/
def placeIdSearch : List Char → Option (List Char)
  | [] => none
  | c :: rest =>
    match placeIdAt (c :: rest) with
    | some m => some m
    | none => placeIdSearch rest

/-- `re.search(r'place/([^/]+)', current_url)` group 1. -/
def placeIdOf (url : String) : Option String :=
  (placeIdSearch url.data).map (fun cs => String.mk cs)

/-! ## `_extract_business_data` -/

/-- Python `str.strip()`: whitespace removed from both ends. -/
def pyStrip (s : String) : String :=
  String.mk
    (((s.data.dropWhile Char.isWhitespace).reverse.dropWhile
        Char.isWhitespace).reverse)

/-- The `text.strip() if text else None` idiom: `None` or empty text gives
`None`, anything else is stripped. -/
def optTrimmed : Option String → Option String
  | none => none
  | some s => if s = "" then none else some (pyStrip s)

/-- The rating branch: skipped when the element/text is missing or falsy,
otherwise regex-extracted. -/
def ratingField : Option String → Option ℚ
  | none => none
  | some t => if t = "" then none else ratingFromText t

/-- The reviews branch, analogous to the rating branch. -/
def reviewsField : Option String → Option ℤ
  | none => none
  | some t => if t = "" then none else reviewsFromText t

/-- `_extract_business_data`: `None` when the name element is missing or its
text is falsy; otherwise the `business_data` dict with name stripped, the
optional fields per their branches, and coordinates never set. -/
def extractBusinessData (e : RawElement) : Option BusinessData :=
  match e.nameText with
  | none => none
  | some nm =>
    if nm = "" then none
    else some {
      name := pyStrip nm
      address := optTrimmed e.addressText
      phone := if e.clickOk then optTrimmed e.phoneText else none
      website := if e.clickOk then e.websiteHref else none
      rating := ratingField e.ratingText
      reviews_count := reviewsField e.reviewsText
      category := optTrimmed e.categoryText
      google_maps_url :=
        if e.clickOk && isSubstrOf ("place/".data) e.pageUrl.data then
          some e.pageUrl
        else none
      place_id :=
        if e.clickOk && isSubstrOf ("place/".data) e.pageUrl.data then
          placeIdOf e.pageUrl
        else none
      coordinates := none }

/-! ## The scroll-and-extract loop of `scrape_businesses`

The DOM query result of scroll cycle `i` is the oracle `elems i`; the loop
state is the accumulated `leads` list together with the `processed_places`
set (a list of names, with set membership as the dedup check). -/

/-- The inner `for element in business_elements` loop: break once
`len(leads) >= max_results`; skip elements whose extraction fails or whose
name is already processed; otherwise append the lead and record its name. -/
def innerLoop (maxResults : ℕ) : List RawElement → List Lead × List String →
    List Lead × List String
  | [], acc => acc
  | e :: rest, acc =>
    if maxResults ≤ acc.1.length then acc
    else
      match extractBusinessData e with
      | none => innerLoop maxResults rest acc
      | some d =>
        if d.name ∈ acc.2 then innerLoop maxResults rest acc
        else innerLoop maxResults rest (acc.1 ++ [leadOfData d], acc.2 ++ [d.name])

/-- The outer `for i in range(max_results // 10)` loop, instrumented with the
number of scroll cycles whose body actually ran: each cycle scrolls, sleeps,
queries `elems i`, runs the inner loop, and breaks once enough leads are
collected. -/
def outerLoop (elems : ℕ → List RawElement) (maxResults : ℕ) :
    ℕ → ℕ → List Lead × List String → (List Lead × List String) × ℕ
  | 0, _, acc => (acc, 0)
  | n + 1, i, acc =>
    let acc' := innerLoop maxResults (elems i) acc
    if maxResults ≤ acc'.1.length then (acc', 1)
    else
      let r := outerLoop elems maxResults n (i + 1) acc'
      (r.1, r.2 + 1)

/-- `scrape_businesses`: run the loop from an empty lead list and empty
processed-names set and return the collected leads. -/
def scrape_businesses (elems : ℕ → List RawElement) (maxResults : ℕ) :
    List Lead :=
  (outerLoop elems maxResults (maxResults / 10) 0 ([], [])).1.1

/-- The processed-names set at the end of the run. -/
def scrapeProcessed (elems : ℕ → List RawElement) (maxResults : ℕ) :
    List String :=
  (outerLoop elems maxResults (maxResults / 10) 0 ([], [])).1.2

/-- How many scroll cycles (scroll + sleep + DOM query) actually executed. -/
def scrapeCycles (elems : ℕ → List RawElement) (maxResults : ℕ) : ℕ :=
  (outerLoop elems maxResults (maxResults / 10) 0 ([], [])).2

/-! ## `utils/export.py` — the CSV writer -/

/-- Decimal rendering of a rational, modelling Python float formatting on the
decimal-exact values this program produces (integer part, a dot, the
fractional digits with trailing zeros dropped, at least one). -/
def fracDigitsAux : ℚ → ℕ → List ℕ
  | _, 0 => []
  | f, n + 1 =>
    let f10 := f * 10
    let d := f10.floor
    d.toNat :: fracDigitsAux (f10 - (d : ℚ)) n

/-- Drop trailing zero digits. -/
def stripTrailingZeros (ds : List ℕ) : List ℕ :=
  (ds.reverse.dropWhile (fun d => d == 0)).reverse

/-- Digit to its character. -/
def digitChar (d : ℕ) : Char := Char.ofNat (48 + d)

/-- `str(x)` for a float holding a decimal-exact value. -/
def decimalStr (q : ℚ) : String :=
  let sign := if q < 0 then "-" else ""
  let a : ℚ := if q < 0 then -q else q
  let ip : ℕ := a.floor.toNat
  let frs := stripTrailingZeros (fracDigitsAux (a - (ip : ℚ)) 12)
  let frStr := if frs.isEmpty then "0" else String.mk (frs.map digitChar)
  sign ++ toString ip ++ "." ++ frStr

/-- The fixed CSV header row of `export_to_csv`. -/
def csvHeaders : List String :=
  ["Name", "Address", "Phone", "Email", "Website", "Category", "Rating",
   "Reviews Count", "Google Maps URL", "Place ID", "Coordinates"]

/-- `x or ""` for an optional string cell (`None` and `""` are both falsy). -/
def pyOrEmptyS : Option String → String
  | none => ""
  | some s => s

/-- `lead.rating or ""` then `str(...)` by the csv writer: `None` and the
falsy float `0.0` give the empty cell. -/
def ratingCell : Option ℚ → String
  | none => ""
  | some q => if q = 0 then "" else decimalStr q

/-- `lead.reviews_count or ""` then `str(...)`: `None` and `0` give the
empty cell. -/
def reviewsCell : Option ℤ → String
  | none => ""
  | some z => if z = 0 then "" else toString z

/-- `d.get(k, '')` on the coordinates dict, `none` standing for the `''`
default. -/
def dictGet (d : List (String × ℚ)) (k : String) : Option ℚ :=
  match d.find? (fun p => p.1 == k) with
  | none => none
  | some p => some p.2

/-- One side of the f-string `f"{lat},{lng}"`: a float renders decimally,
the `''` default renders as itself. -/
def coordPart : Option ℚ → String
  | none => ""
  | some q => decimalStr q

/-- The coordinates cell: empty when the dict is `None` or empty (falsy),
otherwise `f"{coords.get('lat','')},{coords.get('lng','')}"`. -/
def coordsCell : Option (List (String × ℚ)) → String
  | none => ""
  | some d =>
    if d.isEmpty then ""
    else coordPart (dictGet d "lat") ++ "," ++ coordPart (dictGet d "lng")

/-- The row `export_to_csv` writes for one lead. -/
def csvRow (l : Lead) : List String :=
  [l.name,
   pyOrEmptyS l.address,
   pyOrEmptyS l.phone,
   pyOrEmptyS l.email,
   pyOrEmptyS l.website,
   pyOrEmptyS l.category,
   ratingCell l.rating,
   reviewsCell l.reviews_count,
   pyOrEmptyS l.google_maps_url,
   pyOrEmptyS l.place_id,
   coordsCell l.coordinates]

/-- `filename.endswith(suffix)`. -/
def strEndsWith (s suf : String) : Bool := decide (suf.data <:+ s.data)

/-- `os.path.join(dir, name)`: an absolute `name` wins, otherwise the parts
are joined with a slash. -/
def pathJoin (dir name : String) : String :=
  if decide ("/".data <+: name.data) then name else dir ++ "/" ++ name

/-- `export_to_csv`: generate a timestamped name when `filename` is falsy,
append `.csv` when missing, and write the header row followed by one row per
lead in input order under the export directory.  Returns the file path and
the written rows. -/
def export_to_csv (leads : List Lead) (filename : Option String)
    (ts : String) : String × List (List String) :=
  let fname0 := match filename with
    | none => "leads_" ++ ts ++ ".csv"
    | some f => if f = "" then "leads_" ++ ts ++ ".csv" else f
  let fname := if strEndsWith fname0 ".csv" then fname0 else fname0 ++ ".csv"
  (pathJoin "exports" fname, csvHeaders :: leads.map csvRow)

/-- `export_to_sheets`: no Sheets API call is made; a timestamped CSV is
written via `export_to_csv` instead.  `ioErr` models the file write raising:
the whole body is wrapped in `try/except` that returns `False` on any
exception and `True` otherwise.  Returns the flag and the CSV written. -/
def export_to_sheets (leads : List Lead) (ts : String)
    (ioErr : Option PyExc) : Bool × Option (String × List (List String)) :=
  match ioErr with
  | some _ => (false, none)
  | none =>
    (true, some (export_to_csv leads (some ("leads_for_sheets_" ++ ts ++ ".csv")) ts))

/-! ## `main.py` — in-process storage and the HTTP handlers

`leads_storage` is a Python dict from scrape id to lead list, embedded as an
association list whose keys are kept distinct (`keysNodup` is the dict
representation invariant).  Effectful calls made inside a handler body
(the scraper, the enricher, the file writers) enter as oracle parameters. -/

/-- The `leads_storage` dict. -/
def Storage : Type := List (String × List Lead)

/-- Dict lookup: `storage[k]` / `k in storage`. -/
def lookupS : Storage → String → Option (List Lead)
  | [], _ => none
  | (k', v) :: rest, k => if k' = k then some v else lookupS rest k

/-- Dict assignment `storage[k] = v`: overwrite in place or append. -/
def storeSet : Storage → String → List Lead → Storage
  | [], k, v => [(k, v)]
  | (k', v') :: rest, k, v =>
    if k' = k then (k, v) :: rest else (k', v') :: storeSet rest k v

/-- `del storage[k]`: drop the entry with key `k`. -/
def eraseS : Storage → String → Storage
  | [], _ => []
  | (k', v') :: rest, k =>
    if k' = k then rest else (k', v') :: eraseS rest k

/-- The dict representation invariant: keys are pairwise distinct. -/
def keysNodup (st : Storage) : Prop := (st.map Prod.fst).Nodup

/-- A handler's HTTP outcome: a success body, or an `HTTPException`
escaping with a status code and detail. -/
inductive HResp (α : Type) where
  | ok (body : α)
  | httpError (code : Nat) (detail : String)
deriving DecidableEq

/-- `ScrapeResponse` from `models/schemas.py`. -/
structure ScrapeResponse where
  scrape_id : String
  leads : List Lead
  total_found : ℕ
  status : String
deriving DecidableEq

/-- `EnrichmentResponse` from `models/schemas.py`. -/
structure EnrichmentResponse where
  scrape_id : String
  enriched_leads : List Lead
  enrichment_count : ℕ
  status : String
deriving DecidableEq

/-- The JSON body returned by a successful `POST /export`. -/
inductive ExportResult where
  | csvExported (file_path : String)
  | sheetsExported
deriving DecidableEq

/-- `POST /scrape`: on a successful scraper call store the leads under the
freshly generated uuid and respond; any exception from the body is caught
and re-raised as a 500 with detail `"Scraping failed: {str(e)}"`. -/
def scrape_leads (st : Storage) (newId : String)
    (scraped : Except PyExc (List Lead)) : Storage × HResp ScrapeResponse :=
  match scraped with
  | .error e => (st, .httpError 500 ("Scraping failed: " ++ pyExcStr e))
  | .ok leads =>
    (storeSet st newId leads,
     .ok { scrape_id := newId, leads := leads, total_found := leads.length,
           status := "success" })

/-- The `try` body of `POST /enrich`: 404 when the id is unknown, otherwise
enrich (an oracle that may raise), update storage, and build the response;
`enrichment_count` counts leads with a truthy email. -/
def enrichBody (st : Storage) (sid : String)
    (enrich : List Lead → Except PyExc (List Lead)) :
    Except PyExc (Storage × EnrichmentResponse) :=
  match lookupS st sid with
  | none => .error (.http 404 "Scrape ID not found")
  | some leads =>
    match enrich leads with
    | .error e => .error e
    | .ok el =>
      .ok (storeSet st sid el,
           { scrape_id := sid, enriched_leads := el,
             enrichment_count :=
               (el.filter (fun l => match l.email with
                 | none => false
                 | some s => s != "")).length,
             status := "success" })

/-- `POST /enrich`: the body's exceptions — the 404 `HTTPException`
included — are caught at the boundary and re-raised as a 500 with detail
`"Enrichment failed: {str(e)}"`. -/
def enrich_leads (st : Storage) (sid : String)
    (enrich : List Lead → Except PyExc (List Lead)) :
    Storage × HResp EnrichmentResponse :=
  match enrichBody st sid enrich with
  | .ok r => (r.1, .ok r.2)
  | .error e => (st, .httpError 500 ("Enrichment failed: " ++ pyExcStr e))

/-- The `try` body of `POST /export`: 404 when the id is unknown; the csv
branch returns the written path (the write may raise); the sheets branch
400s on a falsy url, then maps the stub's `False` to a 500; any other
format 400s. -/
def exportBody (st : Storage) (sid : String) (format : String)
    (sheets_url : Option String) (csvWrite : Except PyExc String)
    (sheetsOk : Bool) : Except PyExc ExportResult :=
  match lookupS st sid with
  | none => .error (.http 404 "Scrape ID not found")
  | some _ =>
    if format = "csv" then
      match csvWrite with
      | .error e => .error e
      | .ok path => .ok (.csvExported path)
    else if format = "sheets" then
      match sheets_url with
      | none => .error (.http 400 "Google Sheets URL required")
      | some u =>
        if u = "" then .error (.http 400 "Google Sheets URL required")
        else if sheetsOk then .ok .sheetsExported
        else .error (.http 500 "Failed to export to Google Sheets")
    else .error (.http 400 "Invalid export format")

/-- `POST /export`: the body's exceptions — its own 404/400/500
`HTTPException`s included — are caught at the boundary and re-raised as a
500 with detail `"Export failed: {str(e)}"`. -/
def export_leads (st : Storage) (sid : String) (format : String)
    (sheets_url : Option String) (csvWrite : Except PyExc String)
    (sheetsOk : Bool) : Storage × HResp ExportResult :=
  match exportBody st sid format sheets_url csvWrite sheetsOk with
  | .ok r => (st, .ok r)
  | .error e => (st, .httpError 500 ("Export failed: " ++ pyExcStr e))

/-- The JSON body of a successful `GET /leads/{scrape_id}`. -/
structure LeadsView where
  scrape_id : String
  leads : List Lead
  total : ℕ
deriving DecidableEq

/-- `GET /leads/{scrape_id}`: 404 when the id is unknown, otherwise the
stored leads and their count; storage is never modified. -/
def get_leads (st : Storage) (sid : String) : Storage × HResp LeadsView :=
  match lookupS st sid with
  | none => (st, .httpError 404 "Scrape ID not found")
  | some leads =>
    (st, .ok { scrape_id := sid, leads := leads, total := leads.length })

/-- `DELETE /leads/{scrape_id}`: 404 when the id is unknown, otherwise the
entry is deleted. -/
def delete_leads (st : Storage) (sid : String) : Storage × HResp String :=
  match lookupS st sid with
  | none => (st, .httpError 404 "Scrape ID not found")
  | some _ => (eraseS st sid, .ok "Leads deleted successfully")

/-! ## Storage lemmas -/

theorem lookupS_of_not_mem_keys (st : Storage) (k : String)
    (h : k ∉ st.map Prod.fst) : lookupS st k = none := by
  induction st with
  | nil => rfl
  | cons p rest ih =>
    obtain ⟨a, b⟩ := p
    simp only [List.map_cons, List.mem_cons] at h
    push_neg at h
    simp [lookupS, Ne.symm h.1, ih h.2]

theorem lookupS_storeSet_self (st : Storage) (k : String) (v : List Lead) :
    lookupS (storeSet st k v) k = some v := by
  induction st with
  | nil => simp [storeSet, lookupS]
  | cons p rest ih =>
    obtain ⟨a, b⟩ := p
    by_cases hak : a = k
    · simp [storeSet, hak, lookupS]
    · simp [storeSet, hak, lookupS, ih]

theorem lookupS_eraseS_ne (st : Storage) (k k' : String) (hne : k' ≠ k) :
    lookupS (eraseS st k) k' = lookupS st k' := by
  induction st with
  | nil => rfl
  | cons p rest ih =>
    obtain ⟨a, b⟩ := p
    by_cases hak : a = k
    · subst hak
      simp [eraseS, lookupS, Ne.symm hne]
    · simp [eraseS, hak, lookupS, ih]

theorem lookupS_eraseS_self (st : Storage) (k : String) (h : keysNodup st) :
    lookupS (eraseS st k) k = none := by
  induction st with
  | nil => rfl
  | cons p rest ih =>
    obtain ⟨a, b⟩ := p
    have h' : (rest.map Prod.fst).Nodup ∧ a ∉ rest.map Prod.fst := by
      have := h
      simp only [keysNodup, List.map_cons, List.nodup_cons] at this
      exact ⟨this.2, this.1⟩
    by_cases hak : a = k
    · subst hak
      simpa [eraseS] using lookupS_of_not_mem_keys rest a h'.2
    · simp [eraseS, hak, lookupS, ih h'.1]

/-! ## Loop lemmas for `scrape_businesses` -/

theorem leadOfData_name (d : BusinessData) : (leadOfData d).name = d.name := rfl

theorem innerLoop_names (maxR : ℕ) (es : List RawElement)
    (acc : List Lead × List String)
    (h1 : acc.1.map Lead.name = acc.2) (h2 : acc.2.Nodup) :
    (innerLoop maxR es acc).1.map Lead.name = (innerLoop maxR es acc).2
      ∧ (innerLoop maxR es acc).2.Nodup := by
  induction es generalizing acc with
  | nil => exact ⟨h1, h2⟩
  | cons e rest ih =>
    rw [innerLoop]
    split
    · exact ⟨h1, h2⟩
    · split
      · exact ih acc h1 h2
      · next d _hd =>
        split
        · exact ih acc h1 h2
        · next hm =>
          apply ih
          · simp [h1, leadOfData_name]
          · simp [List.nodup_append, h2, List.disjoint_left]
            exact hm

theorem outerLoop_names (elems : ℕ → List RawElement) (maxR n i : ℕ)
    (acc : List Lead × List String)
    (h1 : acc.1.map Lead.name = acc.2) (h2 : acc.2.Nodup) :
    (outerLoop elems maxR n i acc).1.1.map Lead.name =
        (outerLoop elems maxR n i acc).1.2
      ∧ (outerLoop elems maxR n i acc).1.2.Nodup := by
  induction n generalizing i acc with
  | zero => exact ⟨h1, h2⟩
  | succ n ih =>
    rw [outerLoop]
    have hin := innerLoop_names maxR (elems i) acc h1 h2
    split
    · exact hin
    · exact ih (i + 1) _ hin.1 hin.2

theorem innerLoop_length_le (maxR : ℕ) (es : List RawElement)
    (acc : List Lead × List String) (h : acc.1.length ≤ maxR) :
    (innerLoop maxR es acc).1.length ≤ maxR := by
  induction es generalizing acc with
  | nil => exact h
  | cons e rest ih =>
    rw [innerLoop]
    split
    · exact h
    · next hb =>
      split
      · exact ih acc h
      · next d _hd =>
        split
        · exact ih acc h
        · apply ih
          simp only [List.length_append, List.length_cons, List.length_nil]
          omega

theorem outerLoop_length_le (elems : ℕ → List RawElement) (maxR n i : ℕ)
    (acc : List Lead × List String) (h : acc.1.length ≤ maxR) :
    (outerLoop elems maxR n i acc).1.1.length ≤ maxR := by
  induction n generalizing i acc with
  | zero => exact h
  | succ n ih =>
    rw [outerLoop]
    have hin := innerLoop_length_le maxR (elems i) acc h
    split
    · exact hin
    · exact ih (i + 1) _ hin

theorem outerLoop_cycles_le (elems : ℕ → List RawElement) (maxR n i : ℕ)
    (acc : List Lead × List String) :
    (outerLoop elems maxR n i acc).2 ≤ n := by
  induction n generalizing i acc with
  | zero => exact Nat.le_refl 0
  | succ n ih =>
    rw [outerLoop]
    split
    · exact Nat.succ_le_succ (Nat.zero_le n)
    · exact Nat.succ_le_succ (ih (i + 1) _)

/-! ## Regex lemmas for `_extract_business_data` -/

theorem numMatchAt_of_not_digit (c : Char) (rest : List Char)
    (hc : c.isDigit = false) : numMatchAt (c :: rest) = none := by
  simp [numMatchAt, hc]

theorem searchNumAux_eq_none (cs : List Char)
    (h : ∀ c ∈ cs, c.isDigit = false) : searchNumAux cs = none := by
  induction cs with
  | nil => rfl
  | cons c rest ih =>
    rw [searchNumAux, numMatchAt_of_not_digit c rest (h c (List.mem_cons_self c rest))]
    exact ih (fun x hx => h x (List.mem_cons_of_mem c hx))

theorem searchNumAux_isSome (cs : List Char)
    (h : ∃ c ∈ cs, c.isDigit = true) : (searchNumAux cs).isSome = true := by
  induction cs with
  | nil =>
    obtain ⟨c, hc, _⟩ := h
    exact absurd hc (List.not_mem_nil c)
  | cons c rest ih =>
    cases hc : c.isDigit with
    | true =>
      have hm : (numMatchAt (c :: rest)).isSome = true := by
        simp only [numMatchAt, hc, if_true]
        split <;> rfl
      rw [searchNumAux]
      cases hnm : numMatchAt (c :: rest) with
      | none => rw [hnm] at hm; simp at hm
      | some m => rfl
    | false =>
      obtain ⟨x, hx, hdig⟩ := h
      rcases List.mem_cons.mp hx with rfl | hx'
      · rw [hc] at hdig; cases hdig
      · rw [searchNumAux, numMatchAt_of_not_digit c rest hc]
        exact ih ⟨x, hx', hdig⟩

/-! ## The claims -/

/-- C1: every exception raised inside the body of `POST /scrape`,
`POST /enrich` or `POST /export` — the handlers' own inner `HTTPException`s
included — is caught at the handler boundary and surfaced as an HTTP 500
whose detail is `Scraping failed: ...`, `Enrichment failed: ...` or
`Export failed: ...` respectively; no other status code escapes.  In
particular the inner 404 for an unknown scrape id resurfaces as a 500. -/
theorem claim_C1_exceptions_become_500 :
    (∀ (st : Storage) (newId : String) (scraped : Except PyExc (List Lead)),
        (∃ b, (scrape_leads st newId scraped).2 = HResp.ok b)
      ∨ (∃ m, (scrape_leads st newId scraped).2 =
            HResp.httpError 500 ("Scraping failed: " ++ m)))
  ∧ (∀ (st : Storage) (sid : String)
        (enrich : List Lead → Except PyExc (List Lead)),
        (∃ b, (enrich_leads st sid enrich).2 = HResp.ok b)
      ∨ (∃ m, (enrich_leads st sid enrich).2 =
            HResp.httpError 500 ("Enrichment failed: " ++ m)))
  ∧ (∀ (st : Storage) (sid format : String) (sheets_url : Option String)
        (csvWrite : Except PyExc String) (sheetsOk : Bool),
        (∃ b, (export_leads st sid format sheets_url csvWrite sheetsOk).2 =
            HResp.ok b)
      ∨ (∃ m, (export_leads st sid format sheets_url csvWrite sheetsOk).2 =
            HResp.httpError 500 ("Export failed: " ++ m)))
  ∧ (∀ (st : Storage) (sid : String)
        (enrich : List Lead → Except PyExc (List Lead)),
        lookupS st sid = none →
        (enrich_leads st sid enrich).2 =
          HResp.httpError 500 "Enrichment failed: 404: Scrape ID not found")
  ∧ (∀ (st : Storage) (sid : String) (csvWrite : Except PyExc String)
        (sheetsOk : Bool),
        lookupS st sid = none →
        (export_leads st sid "csv" none csvWrite sheetsOk).2 =
          HResp.httpError 500 "Export failed: 404: Scrape ID not found") := by
  refine ⟨?_, ?_, ?_, ?_, ?_⟩
  · intro st newId scraped
    cases scraped with
    | ok leads => exact Or.inl ⟨_, rfl⟩
    | error e => exact Or.inr ⟨pyExcStr e, rfl⟩
  · intro st sid enrich
    cases h : enrichBody st sid enrich with
    | ok r => exact Or.inl ⟨r.2, by simp [enrich_leads, h]⟩
    | error e => exact Or.inr ⟨pyExcStr e, by simp [enrich_leads, h]⟩
  · intro st sid format su cw so
    cases h : exportBody st sid format su cw so with
    | ok r => exact Or.inl ⟨r, by simp [export_leads, h]⟩
    | error e => exact Or.inr ⟨pyExcStr e, by simp [export_leads, h]⟩
  · intro st sid enrich h
    have hb : enrichBody st sid enrich =
        Except.error (PyExc.http 404 "Scrape ID not found") := by
      simp [enrichBody, h]
    simp only [enrich_leads, hb]
    rfl
  · intro st sid cw so h
    have hb : exportBody st sid "csv" none cw so =
        Except.error (PyExc.http 404 "Scrape ID not found") := by
      simp [exportBody, h]
    simp only [export_leads, hb]
    rfl

/-- Witness for C1: on the empty storage, `/enrich` and `/export` with an
unknown scrape id surface the inner 404 as a 500. -/
theorem claim_C1_witness :
    (enrich_leads [] "missing" (fun l => Except.ok l)).2 =
      HResp.httpError 500 "Enrichment failed: 404: Scrape ID not found"
  ∧ (export_leads [] "missing" "csv" none (Except.ok "p") false).2 =
      HResp.httpError 500 "Export failed: 404: Scrape ID not found" :=
  ⟨claim_C1_exceptions_become_500.2.2.2.1 [] "missing" (fun l => Except.ok l) rfl,
   claim_C1_exceptions_become_500.2.2.2.2 [] "missing" (Except.ok "p") false rfl⟩

/-- C2: deduplication in `scrape_businesses` is a set-membership check on
the extracted name: the retained leads' names are exactly the
processed-names set in order, so the returned leads have pairwise distinct
names, each name entering the set at the moment its lead is appended. -/
theorem claim_C2_dedup_by_name (elems : ℕ → List RawElement)
    (maxResults : ℕ) :
    (scrape_businesses elems maxResults).map Lead.name =
        scrapeProcessed elems maxResults
  ∧ ((scrape_businesses elems maxResults).map Lead.name).Nodup := by
  have h := outerLoop_names elems maxResults (maxResults / 10) 0 ([], [])
    rfl List.nodup_nil
  refine ⟨h.1, ?_⟩
  have h2 := h.2
  rw [← h.1] at h2
  exact h2

/-- C3: the scroll-and-extract loop is bounded: it executes at most
`max_results // 10` scroll cycles, and for `1 ≤ max_results ≤ 9` the loop
body runs zero times.  (Termination is inherent: the loop is structural
recursion on the remaining cycle count.) -/
theorem claim_C3_bounded_scroll_cycles (elems : ℕ → List RawElement)
    (maxResults : ℕ) :
    scrapeCycles elems maxResults ≤ maxResults / 10
  ∧ (1 ≤ maxResults → maxResults ≤ 9 → scrapeCycles elems maxResults = 0) := by
  constructor
  · exact outerLoop_cycles_le elems maxResults (maxResults / 10) 0 ([], [])
  · intro _ h9
    have hdiv : maxResults / 10 = 0 := Nat.div_eq_of_lt (by omega)
    simp [scrapeCycles, hdiv, outerLoop]

/-- Witness for C3: with `max_results = 5` no scroll cycle runs. -/
theorem claim_C3_witness : scrapeCycles (fun _ => []) 5 = 0 :=
  (claim_C3_bounded_scroll_cycles (fun _ => []) 5).2 (by decide) (by decide)

/-- C4: a scrape run returns at most `max_results` leads, and the
`ScrapeResponse` built by `POST /scrape` has `total_found` equal to the
length of its `leads` list. -/
theorem claim_C4_total_found (elems : ℕ → List RawElement)
    (maxResults : ℕ) :
    (scrape_businesses elems maxResults).length ≤ maxResults
  ∧ (∀ (st : Storage) (newId : String),
      (scrape_leads st newId
          (Except.ok (scrape_businesses elems maxResults))).2 =
        HResp.ok { scrape_id := newId,
                   leads := scrape_businesses elems maxResults,
                   total_found := (scrape_businesses elems maxResults).length,
                   status := "success" }) := by
  constructor
  · exact outerLoop_length_le elems maxResults (maxResults / 10) 0 ([], [])
      (Nat.zero_le _)
  · intro st newId
    rfl

/-- C5: in `Lead` every field except `name` is optional — constructing a
`Lead` from a name alone leaves every other field `None` — and the scraper
never produces a lead record without a name: a missing or empty name text
yields no record, and any extracted record carries the stripped name text. -/
theorem claim_C5_only_name_required (n : String) :
    (({ name := n } : Lead).address = none
      ∧ ({ name := n } : Lead).phone = none
      ∧ ({ name := n } : Lead).website = none
      ∧ ({ name := n } : Lead).email = none
      ∧ ({ name := n } : Lead).rating = none
      ∧ ({ name := n } : Lead).reviews_count = none
      ∧ ({ name := n } : Lead).category = none
      ∧ ({ name := n } : Lead).google_maps_url = none
      ∧ ({ name := n } : Lead).place_id = none
      ∧ ({ name := n } : Lead).coordinates = none)
  ∧ (∀ e : RawElement, e.nameText = none → extractBusinessData e = none)
  ∧ (∀ e : RawElement, e.nameText = some "" → extractBusinessData e = none)
  ∧ (∀ (e : RawElement) (d : BusinessData), extractBusinessData e = some d →
        ∃ nm, e.nameText = some nm ∧ nm ≠ "" ∧ d.name = pyStrip nm) := by
  refine ⟨⟨rfl, rfl, rfl, rfl, rfl, rfl, rfl, rfl, rfl, rfl⟩, ?_, ?_, ?_⟩
  · intro e h
    simp [extractBusinessData, h]
  · intro e h
    simp [extractBusinessData, h]
  · intro e d hd
    cases hn : e.nameText with
    | none => simp [extractBusinessData, hn] at hd
    | some nm =>
      by_cases hnm : nm = ""
      · simp [extractBusinessData, hn, hnm] at hd
      · simp [extractBusinessData, hn, hnm] at hd
        subst hd
        exact ⟨nm, rfl, hnm, rfl⟩

/-- Witness for C5: an element with no name text, one with empty name
text, and one with name text `"A"`. -/
theorem claim_C5_witness :
    extractBusinessData
      { nameText := none, addressText := none, ratingText := none,
        reviewsText := none, categoryText := none, clickOk := false,
        phoneText := none, websiteHref := none, pageUrl := "" } = none
  ∧ extractBusinessData
      { nameText := some "", addressText := none, ratingText := none,
        reviewsText := none, categoryText := none, clickOk := false,
        phoneText := none, websiteHref := none, pageUrl := "" } = none
  ∧ ∃ nm, (some "A" : Option String) = some nm ∧ nm ≠ ""
      ∧ (⟨"A", none, none, none, none, none, none, none, none, none⟩ :
            BusinessData).name = pyStrip nm :=
  ⟨(claim_C5_only_name_required "x").2.1 _ rfl,
   (claim_C5_only_name_required "x").2.2.1 _ rfl,
   (claim_C5_only_name_required "x").2.2.2
     { nameText := some "A", addressText := none, ratingText := none,
       reviewsText := none, categoryText := none, clickOk := false,
       phoneText := none, websiteHref := none, pageUrl := "" }
     ⟨"A", none, none, none, none, none, none, none, none, none⟩ (by rfl)⟩

/-- C6: a successful `POST /scrape` stores the scraped leads under the
freshly generated id, returns that id with the leads, and a subsequent
`GET /leads/id` on the resulting storage returns exactly those leads with
`total` equal to their count. -/
theorem claim_C6_store_then_get (st : Storage) (newId : String)
    (leads : List Lead) :
    (scrape_leads st newId (Except.ok leads)).1 = storeSet st newId leads
  ∧ (scrape_leads st newId (Except.ok leads)).2 =
      HResp.ok { scrape_id := newId, leads := leads,
                 total_found := leads.length, status := "success" }
  ∧ (get_leads (scrape_leads st newId (Except.ok leads)).1 newId).2 =
      HResp.ok { scrape_id := newId, leads := leads,
                 total := leads.length } := by
  refine ⟨rfl, rfl, ?_⟩
  show (get_leads (storeSet st newId leads) newId).2 = _
  rw [get_leads, lookupS_storeSet_self]

/-- C8: `GET` and `DELETE /leads/id` 404 with `Scrape ID not found`
exactly when the id is not a key of the storage; a 404 leaves the storage
unchanged, and a successful `DELETE` removes exactly that key, leaving
every other stored batch unchanged. -/
theorem claim_C8_get_delete_frame (st : Storage) (sid : String)
    (hnd : keysNodup st) :
    ((get_leads st sid).2 = HResp.httpError 404 "Scrape ID not found" ↔
        lookupS st sid = none)
  ∧ (get_leads st sid).1 = st
  ∧ ((delete_leads st sid).2 = HResp.httpError 404 "Scrape ID not found" ↔
        lookupS st sid = none)
  ∧ (lookupS st sid = none → (delete_leads st sid).1 = st)
  ∧ (lookupS st sid ≠ none →
        lookupS (delete_leads st sid).1 sid = none
      ∧ ∀ k, k ≠ sid → lookupS (delete_leads st sid).1 k = lookupS st k) := by
  cases h : lookupS st sid with
  | none =>
    refine ⟨?_, ?_, ?_, ?_, ?_⟩ <;> simp [get_leads, delete_leads, h]
  | some leads =>
    have hdel : delete_leads st sid =
        (eraseS st sid, HResp.ok "Leads deleted successfully") := by
      simp [delete_leads, h]
    refine ⟨?_, ?_, ?_, ?_, ?_⟩
    · simp [get_leads, h]
    · simp [get_leads, h]
    · rw [hdel]; simp [h]
    · intro hc; simp [h] at hc
    · intro _
      rw [hdel]
      exact ⟨lookupS_eraseS_self st sid hnd,
             fun k hk => lookupS_eraseS_ne st sid k hk⟩

/-- Witness for C8: deleting `"a"` from a two-entry storage removes the
`"a"` batch and leaves the `"b"` batch unchanged. -/
theorem claim_C8_witness :
    lookupS (delete_leads [("a", []), ("b", [])] "a").1 "a" = none
  ∧ lookupS (delete_leads [("a", []), ("b", [])] "a").1 "b" =
      lookupS [("a", []), ("b", [])] "b" := by
  have h := claim_C8_get_delete_frame [("a", []), ("b", [])] "a"
    (by unfold keysNodup; decide)
  have h5 := h.2.2.2.2 (by decide)
  exact ⟨h5.1, h5.2 "b" (by decide)⟩

/-! ## CSV path lemmas -/

theorem strEndsWith_append_left (x s suf : String)
    (h : strEndsWith s suf = true) : strEndsWith (x ++ s) suf = true := by
  simp only [strEndsWith, decide_eq_true_eq] at h ⊢
  rw [String.data_append]
  exact h.trans (List.suffix_append x.data s.data)

theorem strEndsWith_self_append (s suf : String) :
    strEndsWith (s ++ suf) suf = true := by
  simp only [strEndsWith, decide_eq_true_eq]
  rw [String.data_append]
  exact List.suffix_append s.data suf.data

theorem ensure_csv_ends (f : String) :
    strEndsWith (if strEndsWith f ".csv" then f else f ++ ".csv") ".csv"
      = true := by
  split
  · next h => exact h
  · exact strEndsWith_self_append f ".csv"

theorem pathJoin_ends (dir name suf : String)
    (h : strEndsWith name suf = true) :
    strEndsWith (pathJoin dir name) suf = true := by
  rw [pathJoin]
  split
  · exact h
  · exact strEndsWith_append_left (dir ++ "/") name suf h

/-- C7: `export_to_csv` writes exactly the fixed 11-column header followed
by one row per lead in input order; each optional field that is `None`
becomes the empty cell, coordinates render as `lat,lng`, and the returned
path always ends in `.csv`. -/
theorem claim_C7_csv_layout (leads : List Lead) (filename : Option String)
    (ts : String) :
    (export_to_csv leads filename ts).2 =
      ["Name", "Address", "Phone", "Email", "Website", "Category", "Rating",
       "Reviews Count", "Google Maps URL", "Place ID", "Coordinates"]
        :: leads.map csvRow
  ∧ strEndsWith (export_to_csv leads filename ts).1 ".csv" = true
  ∧ (∀ l : Lead, l.address = none → (csvRow l)[1]? = some "")
  ∧ (∀ l : Lead, l.phone = none → (csvRow l)[2]? = some "")
  ∧ (∀ l : Lead, l.email = none → (csvRow l)[3]? = some "")
  ∧ (∀ l : Lead, l.website = none → (csvRow l)[4]? = some "")
  ∧ (∀ l : Lead, l.category = none → (csvRow l)[5]? = some "")
  ∧ (∀ l : Lead, l.rating = none → (csvRow l)[6]? = some "")
  ∧ (∀ l : Lead, l.reviews_count = none → (csvRow l)[7]? = some "")
  ∧ (∀ l : Lead, l.google_maps_url = none → (csvRow l)[8]? = some "")
  ∧ (∀ l : Lead, l.place_id = none → (csvRow l)[9]? = some "")
  ∧ (∀ l : Lead, l.coordinates = none → (csvRow l)[10]? = some "")
  ∧ (∀ (l : Lead) (la lg : ℚ),
        l.coordinates = some [("lat", la), ("lng", lg)] →
        (csvRow l)[10]? = some (decimalStr la ++ "," ++ decimalStr lg)) := by
  refine ⟨rfl, ?_, ?_, ?_, ?_, ?_, ?_, ?_, ?_, ?_, ?_, ?_, ?_⟩
  · simp only [export_to_csv]
    exact pathJoin_ends "exports" _ ".csv" (ensure_csv_ends _)
  · intro l h; simp [csvRow, h, pyOrEmptyS]
  · intro l h; simp [csvRow, h, pyOrEmptyS]
  · intro l h; simp [csvRow, h, pyOrEmptyS]
  · intro l h; simp [csvRow, h, pyOrEmptyS]
  · intro l h; simp [csvRow, h, pyOrEmptyS]
  · intro l h; simp [csvRow, h, ratingCell]
  · intro l h; simp [csvRow, h, reviewsCell]
  · intro l h; simp [csvRow, h, pyOrEmptyS]
  · intro l h; simp [csvRow, h, pyOrEmptyS]
  · intro l h; simp [csvRow, h, coordsCell]
  · intro l la lg h
    have hlat : dictGet [("lat", la), ("lng", lg)] "lat" = some la := rfl
    have hlng : dictGet [("lat", la), ("lng", lg)] "lng" = some lg := rfl
    simp [csvRow, h, coordsCell, hlat, hlng, coordPart]

/-- Witness for C7: a lead with only a name gets empty optional cells, and
a lead with coordinates gets the `lat,lng` cell. -/
theorem claim_C7_witness :
    (csvRow { name := "A" })[1]? = some ""
  ∧ (csvRow { name := "A" })[6]? = some ""
  ∧ (csvRow { name := "A" })[10]? = some ""
  ∧ (csvRow { name := "B",
              coordinates :=
                some [("lat", (1 : ℚ)), ("lng", (2 : ℚ))] })[10]? =
      some (decimalStr 1 ++ "," ++ decimalStr 2) := by
  have h := claim_C7_csv_layout [] none ""
  exact ⟨h.2.2.1 _ rfl, h.2.2.2.2.2.2.2.1 _ rfl,
         h.2.2.2.2.2.2.2.2.2.2.2.1 _ rfl,
         h.2.2.2.2.2.2.2.2.2.2.2.2 _ 1 2 rfl⟩

/-- C9: the rating is the first `(\d+\.?\d*)` match of the rating text
converted to float — `'4.5 stars'` yields `4.5` — and stays `None` exactly
when the text has no digit; an extracted record's rating is always the
regex extraction of its rating text; the reviews count is the first
integer of the reviews text after commas are removed. -/
theorem claim_C9_rating_regex :
    ratingFromText "4.5 stars" = some ((9 : ℚ) / 2)
  ∧ (∀ t : String, (∀ c ∈ t.data, c.isDigit = false) →
        ratingFromText t = none)
  ∧ (∀ t : String, (∃ c ∈ t.data, c.isDigit = true) →
        (ratingFromText t).isSome = true)
  ∧ (∀ (e : RawElement) (d : BusinessData) (t : String),
        e.ratingText = some t → extractBusinessData e = some d →
        d.rating = ratingFromText t)
  ∧ reviewsFromText "1,234 reviews" = some 1234 := by
  refine ⟨?_, ?_, ?_, ?_, ?_⟩
  · have h1 : searchNumAux ("4.5 stars".data) = some ['4', '.', '5'] := by
      decide
    have h2 : floatOfMatch ['4', '.', '5'] =
        ((4 : ℕ) : ℚ) + ((5 : ℕ) : ℚ) / (10 : ℚ) ^ (1 : ℕ) := rfl
    show (searchNumAux ("4.5 stars".data)).map floatOfMatch =
      some ((9 : ℚ) / 2)
    rw [h1]
    show some (floatOfMatch ['4', '.', '5']) = some ((9 : ℚ) / 2)
    rw [h2]
    norm_num
  · intro t h
    show (searchNumAux t.data).map floatOfMatch = none
    rw [searchNumAux_eq_none t.data h]
    rfl
  · intro t h
    show ((searchNumAux t.data).map floatOfMatch).isSome = true
    have hs := searchNumAux_isSome t.data h
    cases hc : searchNumAux t.data with
    | none => rw [hc] at hs; simp at hs
    | some m => rfl
  · intro e d t ht hd
    cases hn : e.nameText with
    | none => simp [extractBusinessData, hn] at hd
    | some nm =>
      by_cases hnm : nm = ""
      · simp [extractBusinessData, hn, hnm] at hd
      · simp [extractBusinessData, hn, hnm] at hd
        subst hd
        show ratingField e.ratingText = ratingFromText t
        rw [ht, ratingField]
        by_cases hte : t = ""
        · subst hte
          rw [if_pos rfl]
          rfl
        · rw [if_neg hte]
  · decide

/-- Witness for C9: digit-free text yields no rating, text with a digit
yields one, and an extracted record's rating equals the regex extraction
of its rating text. -/
theorem claim_C9_witness :
    ratingFromText "no digits" = none
  ∧ (ratingFromText "a1b").isSome = true
  ∧ (⟨"A", none, none, none, none, none, none, none, none, none⟩ :
        BusinessData).rating = ratingFromText "x" :=
  ⟨claim_C9_rating_regex.2.1 "no digits" (by decide),
   claim_C9_rating_regex.2.2.1 "a1b" ⟨'1', by decide, by decide⟩,
   claim_C9_rating_regex.2.2.2.1
     { nameText := some "A", addressText := none, ratingText := some "x",
       reviewsText := none, categoryText := none, clickOk := false,
       phoneText := none, websiteHref := none, pageUrl := "" }
     ⟨"A", none, none, none, none, none, none, none, none, none⟩
     "x" rfl (by rfl)⟩

/-- C10: `export_to_sheets` is a stub — it makes no Sheets API call and
instead writes a timestamped CSV via `export_to_csv`, returning `True`
when the write succeeds and `False` (not raising) when it raises — and
`POST /export` with format `sheets` maps a `False` return to a 500. -/
theorem claim_C10_sheets_stub (leads : List Lead) (ts : String) :
    export_to_sheets leads ts none =
      (true, some (export_to_csv leads
        (some ("leads_for_sheets_" ++ ts ++ ".csv")) ts))
  ∧ (∀ e : PyExc, export_to_sheets leads ts (some e) = (false, none))
  ∧ (∀ (st : Storage) (sid u : String) (cw : Except PyExc String),
        lookupS st sid ≠ none → u ≠ "" →
        (export_leads st sid "sheets" (some u) cw false).2 =
          HResp.httpError 500
            "Export failed: 500: Failed to export to Google Sheets") := by
  refine ⟨rfl, fun e => rfl, ?_⟩
  intro st sid u cw h hu
  cases hl : lookupS st sid with
  | none => exact absurd hl h
  | some leads' =>
    have hb : exportBody st sid "sheets" (some u) cw false =
        Except.error (PyExc.http 500 "Failed to export to Google Sheets") := by
      simp [exportBody, hl, hu]
    simp only [export_leads, hb]
    rfl

/-- Witness for C10: a stored batch, a nonempty url and a failing stub
yield the 500. -/
theorem claim_C10_witness :
    (export_leads [("a", [])] "a" "sheets" (some "https://x") (Except.ok "p")
        false).2 =
      HResp.httpError 500
        "Export failed: 500: Failed to export to Google Sheets" :=
  (claim_C10_sheets_stub [] "ts").2.2 [("a", [])] "a" "https://x"
    (Except.ok "p") (by decide) (by decide)

end LeadGen
